import Mathlib

/-!
Verification of the single-page financial dashboard in charts_app.py.

The program is embedded shallowly: Python scalar values become an inductive
type, Python floats are modelled as exact rationals, Python exceptions become
an explicit error type threaded through Except, and the Streamlit submission
handler becomes a pure function from inputs and a provider oracle to the
sequence of issued provider calls and rendered output elements.
-/

namespace ChartsApp

/-- A Python scalar value as it appears in the provider's info mapping:
null, int, float (modelled as an exact rational), or string. -/
inductive Value where
  | none
  | int (i : ℤ)
  | float (q : ℚ)
  | str (s : String)
deriving DecidableEq

/-- A Python exception, tagged with its class and carrying the text of str(e).
providerError stands for the exception classes the market-data client can
raise (network failure, unknown ticker, malformed response). -/
inductive PyErr where
  | typeError (m : String)
  | valueError (m : String)
  | attributeError (m : String)
  | providerError (m : String)
deriving DecidableEq

/-- The text str(e) of an exception. -/
def PyErr.msg : PyErr → String
  | .typeError m => m
  | .valueError m => m
  | .attributeError m => m
  | .providerError m => m

/-- Whether a value is a Python string. -/
def Value.isStr : Value → Bool
  | .str _ => true
  | _ => false

/-- The rational denoted by an integer. -/
def ratOfInt (i : ℤ) : ℚ := Rat.divInt i 1

/-- ASCII whitespace as recognised by str.strip and by float(str). -/
def pyIsSpace (c : Char) : Bool :=
  c == ' ' || c == '\t' || c == '\n' || c == '\r' || c == '\x0b' || c == '\x0c'

/-- ticker.strip(): drop leading and trailing whitespace. -/
def pyStrip (s : String) : String :=
  String.mk (((s.data.dropWhile pyIsSpace).reverse.dropWhile pyIsSpace).reverse)

/-- ticker.upper(), on the ASCII alphabet. -/
def pyUpper (s : String) : String := s.map Char.toUpper

/-- s.capitalize(): first character uppercased, the rest lowercased
(ASCII view of the Python behaviour). -/
def pyCapitalizeStr (s : String) : String :=
  match s.data with
  | [] => ""
  | c :: cs => String.mk (c.toUpper :: cs.map Char.toLower)

/-- The numeric value of a digit string, most significant digit first. -/
def digitsToNat (ds : List Char) : ℕ :=
  ds.foldl (fun a c => 10 * a + (c.toNat - 48)) 0

/-- The optional exponent tail of a float literal: sign and a nonempty digit
run ending the string, scaling the mantissa by a power of ten. -/
def parseExpTail (m : ℚ) (cs : List Char) : Option ℚ :=
  let rest := match cs with
    | '+' :: t => (true, t)
    | '-' :: t => (false, t)
    | t => (true, t)
  let ds := rest.2.span Char.isDigit
  if ds.1.isEmpty ∨ ¬ ds.2.isEmpty then Option.none
  else
    let e := digitsToNat ds.1
    some (if rest.1 then Rat.divInt (m.num * 10 ^ e) m.den
          else Rat.divInt m.num ((m.den : ℤ) * 10 ^ e))

/-- Accept the end of a float literal or an exponent marker. -/
def parseAfterMantissa (m : ℚ) : List Char → Option ℚ
  | [] => some m
  | 'e' :: cs => parseExpTail m cs
  | 'E' :: cs => parseExpTail m cs
  | _ => Option.none

/-- The mantissa of a float literal: digits, optionally with a decimal point,
with at least one digit overall. -/
def parseMantissa (cs : List Char) : Option ℚ :=
  let ip := cs.span Char.isDigit
  match ip.2 with
  | '.' :: rest2 =>
    let fp := rest2.span Char.isDigit
    if ip.1.isEmpty ∧ fp.1.isEmpty then Option.none
    else
      parseAfterMantissa
        (Rat.divInt (digitsToNat ip.1 * 10 ^ fp.1.length + digitsToNat fp.1) (10 ^ fp.1.length))
        fp.2
  | rest =>
    if ip.1.isEmpty then Option.none
    else parseAfterMantissa (ratOfInt (digitsToNat ip.1)) rest

/-- float(s) on a string: surrounding whitespace is ignored, then an optional
sign and a decimal mantissa with optional exponent. The special values inf
and nan lie outside the exact-rational abstraction and are not modelled. -/
def parseFloat (s : String) : Option ℚ :=
  match (pyStrip s).data with
  | '+' :: cs => parseMantissa cs
  | '-' :: cs => (parseMantissa cs).map (fun q => -q)
  | cs => parseMantissa cs

/-- Decidable equality for Except results, by cases on the two constructors. -/
instance {e a : Type} [DecidableEq e] [DecidableEq a] : DecidableEq (Except e a) := fun x y =>
  match x, y with
  | .ok u, .ok v =>
    decidable_of_iff (u = v)
      (by constructor <;> (intro h; first | exact congrArg Except.ok h | injection h))
  | .error u, .error v =>
    decidable_of_iff (u = v)
      (by constructor <;> (intro h; first | exact congrArg Except.error h | injection h))
  | .ok _, .error _ => isFalse (by intro h; exact Except.noConfusion h)
  | .error _, .ok _ => isFalse (by intro h; exact Except.noConfusion h)

/-- float(value): identity on numbers, decimal parsing on strings, TypeError
on None. Non-numeric strings give ValueError. -/
def pyFloat : Value → Except PyErr ℚ
  | .none => .error (.typeError "float argument must be a string or a real number, not NoneType")
  | .int i => .ok (ratOfInt i)
  | .float q => .ok q
  | .str s =>
    match parseFloat s with
    | some q => .ok q
    | Option.none => .error (.valueError ("could not convert string to float: " ++ s))

/-- Round a rational to the nearest integer with ties to even, the rounding
used by Python fixed-point formatting, acting here on the exact value.
The fractional part q - floor q is compared with one half at the integer
level: it equals (q.num - floor q * q.den) / q.den. -/
def roundHalfEven (q : ℚ) : ℤ :=
  let f := q.floor
  let r2 := 2 * (q.num - f * (q.den : ℤ))
  if r2 < (q.den : ℤ) then f
  else if (q.den : ℤ) < r2 then f + 1
  else if f % 2 = 0 then f else f + 1

/-- Left-pad a numeral string with zeros to a given width. -/
def padZeros (k : ℕ) (s : String) : String :=
  String.mk (List.replicate (k - s.length) '0') ++ s

/-- Fixed-point rendering with prec digits after the decimal point, as the
format specifications .1f and .2f do: scale by a power of ten, round half to
even, and print with the sign of the original value, so that small negative
values keep their minus sign. -/
def fmtFixed (prec : ℕ) (q : ℚ) : String :=
  let n := roundHalfEven (Rat.divInt (q.num * 10 ^ prec) q.den)
  let m := n.natAbs
  let sgn := if q < 0 then "-" else ""
  if prec = 0 then sgn ++ toString m
  else sgn ++ toString (m / 10 ^ prec) ++ "." ++ padZeros prec (toString (m % 10 ^ prec))

/-- The suffix table of format_value. -/
def suffixes : List String := ["", "K", "M", "B", "T"]

/-- The scaling loop of format_value:
while value >= 1000 and suffix_index < len(suffixes) - 1, divide by 1000 and
advance the index. rem is the number of index positions still available,
len(suffixes) - 1 - suffix_index, so the loop guard index bound is rem > 0;
returned are the final value and the number of divisions performed, which is
the final suffix index when started from index zero. Division is the exact
rational value of the Python float division. -/
def scaleLoop : ℚ → ℕ → ℚ × ℕ
  | v, 0 => (v, 0)
  | v, rem + 1 =>
    if (1000 : ℚ) ≤ v then
      let p := scaleLoop (Rat.divInt v.num ((v.den : ℤ) * 1000)) rem
      (p.1, p.2 + 1)
    else (v, 0)

/-- The final rendering of format_value on a number: run the scaling loop,
then print with one decimal, a dollar sign in front and the reached suffix
behind. -/
def scaleRender (q : ℚ) : String :=
  let p := scaleLoop q (suffixes.length - 1)
  "$" ++ fmtFixed 1 p.1 ++ suffixes.getD p.2 ""

/-- format_value from charts_app.py: None and non-numbers give N/A (the guard
is value is None or not isinstance(value, (int, float))); numbers are scaled
through the suffix table and rendered. -/
def format_value (value : Value) : String :=
  match value with
  | .int i => scaleRender (ratOfInt i)
  | .float q => scaleRender q
  | _ => "N/A"

/-- safe_format from charts_app.py with its default two-decimal format string.
The try block computes float(value) and formats it; the except clause catches
exactly TypeError and ValueError, giving N/A; any other exception class would
propagate, hence the error branch. -/
def safe_format (value : Value) : Except PyErr String :=
  match pyFloat value with
  | .ok q => .ok (fmtFixed 2 q)
  | .error (.typeError _) => .ok "N/A"
  | .error (.valueError _) => .ok "N/A"
  | .error e => .error e

/-- The interval_map dictionary of the submission handler, as a lookup
function: each of the seven range labels maps to its
(lookback period, sampling interval) pair. -/
def interval_map (label : String) : Option (String × String) :=
  if label = "1D" then some ("1d", "1h")
  else if label = "5D" then some ("5d", "1d")
  else if label = "1M" then some ("1mo", "1d")
  else if label = "6M" then some ("6mo", "1wk")
  else if label = "YTD" then some ("ytd", "1mo")
  else if label = "1Y" then some ("1y", "1mo")
  else if label = "5Y" then some ("5y", "3mo")
  else Option.none

/-- interval_map.get(period, ("1mo", "1d")): the dictionary lookup with its
default pair. -/
def resolve (label : String) : String × String :=
  (interval_map label).getD ("1mo", "1d")

/-- The provider's info mapping: an open key-value dictionary over scalar
values, with no fixed schema. -/
def Snapshot := String → Option Value

/-- info.get(key): None when the key is absent. -/
def getV (info : Snapshot) (key : String) : Value :=
  (info key).getD Value.none

/-- info.get(key, dflt). -/
def getVD (info : Snapshot) (key : String) (dflt : Value) : Value :=
  (info key).getD dflt

/-- Python string repetition s * n (the meaning of multiplying a string by an
int, reachable when a string value meets the dividend-yield scaling). -/
def strRepeat (s : String) (n : ℤ) : String :=
  String.join (List.replicate n.toNat s)

/-- Python value * n for an int n: numbers multiply, strings repeat, None
raises TypeError. -/
def pyMulInt : Value → ℤ → Except PyErr Value
  | .int i, n => .ok (.int (i * n))
  | .float q, n => .ok (.float (Rat.divInt (q.num * n) q.den))
  | .str s, n => .ok (.str (strRepeat s n))
  | .none, _ => .error (.typeError "unsupported operand types for mul: NoneType and int")

/-- value.capitalize(): defined on strings, AttributeError on anything else. -/
def pyCapitalize : Value → Except PyErr String
  | .str s => .ok (pyCapitalizeStr s)
  | .none => .error (.attributeError "NoneType object has no attribute capitalize")
  | .int _ => .error (.attributeError "int object has no attribute capitalize")
  | .float _ => .error (.attributeError "float object has no attribute capitalize")

/-- The stock_info rows: three raw lookups with an N/A default, two
format_value renderings, and the raw employee-count lookup. -/
def stock_info (info : Snapshot) : List (String × Value) :=
  [("Country", getVD info "country" (.str "N/A")),
   ("Sector", getVD info "sector" (.str "N/A")),
   ("Industry", getVD info "industry" (.str "N/A")),
   ("Market Cap", .str (format_value (getV info "marketCap"))),
   ("Enterprise Value", .str (format_value (getV info "enterpriseValue"))),
   ("Employees", getVD info "fullTimeEmployees" (.str "N/A"))]

/-- The price_info rows: six safe_format renderings, each with a dollar sign
prepended by the surrounding f-string. -/
def price_info (info : Snapshot) : Except PyErr (List (String × Value)) := do
  let cp ← safe_format (getV info "currentPrice")
  let pc ← safe_format (getV info "previousClose")
  let dh ← safe_format (getV info "dayHigh")
  let dl ← safe_format (getV info "dayLow")
  let wh ← safe_format (getV info "fiftyTwoWeekHigh")
  let wl ← safe_format (getV info "fiftyTwoWeekLow")
  pure [("Current Price", .str ("$" ++ cp)),
        ("Previous Close", .str ("$" ++ pc)),
        ("Day High", .str ("$" ++ dh)),
        ("Day Low", .str ("$" ++ dl)),
        ("52 Week High", .str ("$" ++ wh)),
        ("52 Week Low", .str ("$" ++ wl))]

/-- The biz_metrics rows: three safe_format renderings, the dividend rate
with a dollar sign, the dividend yield looked up with default 0 then
multiplied by 100 and rendered with a percent sign, and the recommendation
key capitalized. -/
def biz_metrics (info : Snapshot) : Except PyErr (List (String × Value)) := do
  let eps ← safe_format (getV info "forwardEps")
  let pe ← safe_format (getV info "forwardPE")
  let peg ← safe_format (getV info "pegRatio")
  let dr ← safe_format (getV info "dividendRate")
  let dyProd ← pyMulInt (getVD info "dividendYield" (.int 0)) 100
  let dy ← safe_format dyProd
  let rk ← pyCapitalize (getVD info "recommendationKey" (.str "N/A"))
  pure [("EPS (FWD)", .str eps),
        ("P/E (FWD)", .str pe),
        ("PEG Ratio", .str peg),
        ("Dividend Rate (FWD)", .str ("$" ++ dr)),
        ("Dividend Yield (FWD)", .str (dy ++ "%")),
        ("Recommendation", .str rk)]

/-- The market-data provider as an oracle: the result of reading stock.info
and the result of stock.history(period, interval), either of which may raise. -/
structure Provider where
  info : Except PyErr Snapshot
  history : String → String → Except PyErr (List ℚ)

/-- A provider call issued during a submission cycle. -/
inductive CallEvent where
  | infoCall
  | historyCall (period interval : String)
deriving DecidableEq

/-- A rendered Streamlit output element, in render order. -/
inductive St where
  | subheader (tickerUpper : String) (longName : Value)
  | lineChart (closes : List ℚ)
  | warning (m : String)
  | table (title : String) (rows : List (String × Value))
  | errorBox (m : String)
deriving DecidableEq

/-- One submission cycle of the main logic: the empty-ticker validation, then
the try block fetching info, rendering the subheader, resolving the range,
fetching history, rendering the chart or the no-data warning, and rendering
the three tables; the except clause turns any exception into one error box
holding the exception text after the fixed prefix. The result is the list of
provider calls issued and the rendered elements, both in order. -/
def submission (ticker periodLabel : String) (p : Provider) : List CallEvent × List St :=
  if pyStrip ticker = "" then
    ([], [.errorBox "Please provide a valid stock ticker."])
  else
    match p.info with
    | .error e => ([.infoCall], [.errorBox ("An error occurred: " ++ e.msg)])
    | .ok info =>
      let header : St := .subheader (pyUpper ticker) (getVD info "longName" (.str "N/A"))
      let params := resolve periodLabel
      let calls := [CallEvent.infoCall, CallEvent.historyCall params.1 params.2]
      match p.history params.1 params.2 with
      | .error e => (calls, [header, .errorBox ("An error occurred: " ++ e.msg)])
      | .ok closes =>
        let chart : St :=
          if closes.isEmpty then .warning "No historical data available for the selected period."
          else .lineChart closes
        let t1 : St := .table "Stock Info" (stock_info info)
        match price_info info with
        | .error e => (calls, [header, chart, t1, .errorBox ("An error occurred: " ++ e.msg)])
        | .ok priceRows =>
          match biz_metrics info with
          | .error e =>
            (calls, [header, chart, t1, .table "Price Info" priceRows,
                     .errorBox ("An error occurred: " ++ e.msg)])
          | .ok bizRows =>
            (calls, [header, chart, t1, .table "Price Info" priceRows,
                     .table "Business Metrics" bizRows])

/-- The empty quote snapshot: every key absent. -/
def emptySnap : Snapshot := fun _ => Option.none

/-- A snapshot whose only entry is an integer employee count. -/
def empSnap : Snapshot :=
  fun k => if k = "fullTimeEmployees" then some (Value.int 150000) else Option.none

/-- A provider whose info read raises. -/
def failingProvider : Provider :=
  ⟨.error (.providerError "boom"), fun _ _ => .error (.providerError "boom")⟩

/-- The number carried by an int or float value, if any: the implicit float
view used by the arithmetic inside format_value. -/
def numVal : Value → Option ℚ
  | .int i => some (ratOfInt i)
  | .float q => some q
  | _ => Option.none

theorem string_append_empty (s : String) : s ++ "" = s := by
  cases s with
  | mk l => show String.mk (l ++ []) = String.mk l
            rw [List.append_nil]

/-- safe_format always returns normally: the only exception classes that
float(value) can raise are the two the except clause catches. -/
theorem safe_format_isOk (v : Value) : ∃ s : String, safe_format v = .ok s := by
  cases v with
  | none => exact ⟨"N/A", rfl⟩
  | int i => exact ⟨fmtFixed 2 (ratOfInt i), rfl⟩
  | float q => exact ⟨fmtFixed 2 q, rfl⟩
  | str s =>
    cases h : parseFloat s with
    | none => exact ⟨"N/A", by simp [safe_format, pyFloat, h]⟩
    | some q => exact ⟨fmtFixed 2 q, by simp [safe_format, pyFloat, h]⟩

/-- The scaling loop performs at most rem divisions: the returned division
count is bounded by the number of available suffix positions. -/
theorem scaleLoop_count_le (q : ℚ) (rem : ℕ) : (scaleLoop q rem).2 ≤ rem := by
  induction rem generalizing q with
  | zero => simp [scaleLoop]
  | succ n ih =>
    rw [scaleLoop]
    split
    · exact Nat.succ_le_succ (ih _)
    · exact Nat.zero_le _

/-- Claim C1: safe_format never propagates an exception to its caller: every
input yields a normally returned string, conversion failures yield N/A, and
the three documented cases hold: None gives N/A, the string 3.14159 gives
3.14, the integer 3 gives 3.00. -/
theorem safe_format_never_raises :
    (∀ v : Value, ∃ s : String, safe_format v = .ok s) ∧
    safe_format Value.none = .ok "N/A" ∧
    safe_format (Value.str "3.14159") = .ok "3.14" ∧
    safe_format (Value.int 3) = .ok "3.00" :=
  ⟨safe_format_isOk, by decide, by decide, by decide⟩

/-- Claim C2: the range resolver returns the table pair for each of the seven
defined labels, and the default pair for every other string; no error is
raised for unknown input (resolve is total and silently defaults). -/
theorem resolve_label_table :
    (resolve "1D" = ("1d", "1h") ∧ resolve "5D" = ("5d", "1d") ∧
     resolve "1M" = ("1mo", "1d") ∧ resolve "6M" = ("6mo", "1wk") ∧
     resolve "YTD" = ("ytd", "1mo") ∧ resolve "1Y" = ("1y", "1mo") ∧
     resolve "5Y" = ("5y", "3mo")) ∧
    ∀ label : String, label ∉ ["1D", "5D", "1M", "6M", "YTD", "1Y", "5Y"] →
      resolve label = ("1mo", "1d") := by
  refine ⟨by decide, ?_⟩
  intro label hl
  simp only [List.mem_cons, List.not_mem_nil, or_false, not_or] at hl
  obtain ⟨n1, n2, n3, n4, n5, n6, n7⟩ := hl
  simp [resolve, interval_map, n1, n2, n3, n4, n5, n6, n7]

theorem resolve_label_table_witness : resolve "" = ("1mo", "1d") :=
  resolve_label_table.2 "" (by decide)

/-- Claim C3: the magnitude formatter scales numeric input through the suffix
tiers and renders with one decimal and a dollar sign: 999 stays unscaled,
1000 becomes 1.0K, 1500000 becomes 1.5M, and 10 to the 15 stops at the T tier
as 1000.0T. -/
theorem format_value_magnitude_cases :
    format_value (Value.int 999) = "$999.0" ∧
    format_value (Value.int 1000) = "$1.0K" ∧
    format_value (Value.int 1500000) = "$1.5M" ∧
    format_value (Value.int (10 ^ 15)) = "$1000.0T" :=
  ⟨by decide, by decide, by decide, by decide⟩

/-- Claim C4: the magnitude formatter returns N/A on every absent or
non-numeric input: None and every string. -/
theorem format_value_non_numeric :
    format_value Value.none = "N/A" ∧
    ∀ s : String, format_value (Value.str s) = "N/A" :=
  ⟨rfl, fun _ => rfl⟩

/-- Claim C5: on every number strictly below 1000, zero and negatives
included, the scaling loop is skipped and the result is the raw value with
one decimal and a dollar sign, with no suffix. -/
theorem format_value_below_thousand (v : Value) (q : ℚ)
    (hq : numVal v = some q) (hlt : q < 1000) :
    format_value v = "$" ++ fmtFixed 1 q := by
  have hno : ¬ (1000 : ℚ) ≤ q := not_le.mpr hlt
  have hrender : scaleRender q = "$" ++ fmtFixed 1 q := by
    rw [scaleRender]
    show "$" ++ fmtFixed 1 (scaleLoop q 4).1 ++ suffixes.getD (scaleLoop q 4).2 "" =
      "$" ++ fmtFixed 1 q
    rw [scaleLoop, if_neg hno]
    exact string_append_empty _
  cases v with
  | int i =>
    simp only [numVal, Option.some.injEq] at hq
    rw [format_value, hq, hrender]
  | float p =>
    simp only [numVal, Option.some.injEq] at hq
    rw [format_value, hq, hrender]
  | none => exact absurd hq (by simp [numVal])
  | str s => exact absurd hq (by simp [numVal])

theorem format_value_below_thousand_witness :
    format_value (Value.int (-500)) = "$" ++ fmtFixed 1 (ratOfInt (-500)) ∧
    format_value (Value.int (-500)) = "$-500.0" :=
  ⟨format_value_below_thousand (Value.int (-500)) (ratOfInt (-500)) rfl (by decide),
   by decide⟩

/-- Claim C9: both formatters terminate on every input with a defined string,
and the scaling loop performs at most len(suffixes) - 1 = 4 iterations, since
the suffix index strictly increases and is bounded by the list length. -/
theorem formatters_terminate :
    (∀ (q : ℚ) (rem : ℕ), (scaleLoop q rem).2 ≤ rem) ∧
    (∀ q : ℚ, (scaleLoop q (suffixes.length - 1)).2 ≤ 4) ∧
    (∀ v : Value, ∃ s : String, format_value v = s) ∧
    (∀ v : Value, ∃ s : String, safe_format v = .ok s) :=
  ⟨scaleLoop_count_le, fun q => scaleLoop_count_le q 4, fun v => ⟨format_value v, rfl⟩,
   safe_format_isOk⟩

theorem exbind_ok {α β : Type} (a : α) (f : α → Except PyErr β) :
    (Except.ok a >>= f) = f a := rfl

theorem expure {α : Type} (a : α) : (pure a : Except PyErr α) = Except.ok a := rfl

theorem exbind_err {α β : Type} (e : PyErr) (f : α → Except PyErr β) :
    ((Except.error e : Except PyErr α) >>= f) = Except.error e := rfl

theorem exmap_ok {α β : Type} (f : α → β) (a : α) :
    (f <$> (Except.ok a : Except PyErr α)) = Except.ok (f a) := rfl

theorem exmap_err {α β : Type} (f : α → β) (e : PyErr) :
    (f <$> (Except.error e : Except PyErr α)) = Except.error e := rfl

/-- price_info always returns normally, and every row value it builds is a
string: each field goes through safe_format and a dollar-sign f-string. -/
theorem price_info_isOk (info : Snapshot) :
    ∃ rows : List (String × Value), price_info info = .ok rows ∧
      rows.all (fun r => Value.isStr r.2) = true := by
  obtain ⟨s1, h1⟩ := safe_format_isOk (getV info "currentPrice")
  obtain ⟨s2, h2⟩ := safe_format_isOk (getV info "previousClose")
  obtain ⟨s3, h3⟩ := safe_format_isOk (getV info "dayHigh")
  obtain ⟨s4, h4⟩ := safe_format_isOk (getV info "dayLow")
  obtain ⟨s5, h5⟩ := safe_format_isOk (getV info "fiftyTwoWeekHigh")
  obtain ⟨s6, h6⟩ := safe_format_isOk (getV info "fiftyTwoWeekLow")
  refine ⟨[("Current Price", .str ("$" ++ s1)), ("Previous Close", .str ("$" ++ s2)),
           ("Day High", .str ("$" ++ s3)), ("Day Low", .str ("$" ++ s4)),
           ("52 Week High", .str ("$" ++ s5)), ("52 Week Low", .str ("$" ++ s6))], ?_, rfl⟩
  simp only [price_info, h1, h2, h3, h4, h5, h6, exbind_ok, expure]

/-- When biz_metrics returns normally, every row value is a string. -/
theorem biz_metrics_rows_str (info : Snapshot) (rows : List (String × Value))
    (h : biz_metrics info = .ok rows) :
    rows.all (fun r => Value.isStr r.2) = true := by
  obtain ⟨s1, h1⟩ := safe_format_isOk (getV info "forwardEps")
  obtain ⟨s2, h2⟩ := safe_format_isOk (getV info "forwardPE")
  obtain ⟨s3, h3⟩ := safe_format_isOk (getV info "pegRatio")
  obtain ⟨s4, h4⟩ := safe_format_isOk (getV info "dividendRate")
  cases hmul : pyMulInt (getVD info "dividendYield" (.int 0)) 100 with
  | error e =>
    simp only [biz_metrics, h1, h2, h3, h4, hmul, exbind_ok, exbind_err] at h
    exact absurd h (by simp)
  | ok dy =>
    obtain ⟨s5, h5⟩ := safe_format_isOk dy
    cases hcap : pyCapitalize (getVD info "recommendationKey" (.str "N/A")) with
    | error e =>
      simp only [biz_metrics, h1, h2, h3, h4, hmul, h5, hcap, exbind_ok, exbind_err,
        exmap_err] at h
      exact absurd h (by simp)
    | ok rk =>
      simp only [biz_metrics, h1, h2, h3, h4, hmul, h5, hcap, exbind_ok, expure,
        exmap_ok, Except.ok.injEq] at h
      rw [← h]
      rfl

/-- Claim C6 counterexample: with every key absent, three business-metrics
rows do not render N/A: the dividend rate renders with the dollar sign still
prepended, the dividend yield renders the scaled default 0 as 0.00 percent,
and the recommendation renders the capitalized fallback with a lowercased
tail. -/
theorem missing_key_not_na_counterexample :
    emptySnap "dividendYield" = Option.none ∧
    emptySnap "recommendationKey" = Option.none ∧
    emptySnap "dividendRate" = Option.none ∧
    biz_metrics emptySnap =
      .ok [("EPS (FWD)", Value.str "N/A"), ("P/E (FWD)", Value.str "N/A"),
           ("PEG Ratio", Value.str "N/A"), ("Dividend Rate (FWD)", Value.str "$N/A"),
           ("Dividend Yield (FWD)", Value.str "0.00%"), ("Recommendation", Value.str "N/a")] ∧
    ("0.00%" ≠ "N/A") ∧ ("N/a" ≠ "N/A") ∧ ("$N/A" ≠ "N/A") :=
  ⟨rfl, rfl, rfl, by decide, by decide, by decide, by decide⟩

/-- Inversion of a normal biz_metrics return: the six intermediate results
all returned normally and the rows are the six labelled entries built from
them. -/
theorem biz_metrics_ok_elim (info : Snapshot) (rows : List (String × Value))
    (h : biz_metrics info = .ok rows) :
    ∃ (s1 s2 s3 s4 : String) (dy : Value) (s5 rk : String),
      safe_format (getV info "forwardEps") = .ok s1 ∧
      safe_format (getV info "forwardPE") = .ok s2 ∧
      safe_format (getV info "pegRatio") = .ok s3 ∧
      safe_format (getV info "dividendRate") = .ok s4 ∧
      pyMulInt (getVD info "dividendYield" (Value.int 0)) 100 = .ok dy ∧
      safe_format dy = .ok s5 ∧
      pyCapitalize (getVD info "recommendationKey" (Value.str "N/A")) = .ok rk ∧
      rows = [("EPS (FWD)", Value.str s1), ("P/E (FWD)", Value.str s2),
              ("PEG Ratio", Value.str s3), ("Dividend Rate (FWD)", Value.str ("$" ++ s4)),
              ("Dividend Yield (FWD)", Value.str (s5 ++ "%")),
              ("Recommendation", Value.str rk)] := by
  obtain ⟨s1, h1⟩ := safe_format_isOk (getV info "forwardEps")
  obtain ⟨s2, h2⟩ := safe_format_isOk (getV info "forwardPE")
  obtain ⟨s3, h3⟩ := safe_format_isOk (getV info "pegRatio")
  obtain ⟨s4, h4⟩ := safe_format_isOk (getV info "dividendRate")
  cases hmul : pyMulInt (getVD info "dividendYield" (Value.int 0)) 100 with
  | error e =>
    simp only [biz_metrics, h1, h2, h3, h4, hmul, exbind_ok, exbind_err] at h
    exact absurd h (by simp)
  | ok dy =>
    obtain ⟨s5, h5⟩ := safe_format_isOk dy
    cases hcap : pyCapitalize (getVD info "recommendationKey" (Value.str "N/A")) with
    | error e =>
      simp only [biz_metrics, h1, h2, h3, h4, hmul, h5, hcap, exbind_ok, exbind_err,
        exmap_err] at h
      exact absurd h (by simp)
    | ok rk =>
      refine ⟨s1, s2, s3, s4, dy, s5, rk, h1, h2, h3, h4, rfl, h5, rfl, ?_⟩
      simp only [biz_metrics, h1, h2, h3, h4, hmul, h5, hcap, exbind_ok, expure,
        exmap_ok, Except.ok.injEq] at h
      exact h.symm

/-- Claim C6 amended, per key: in the stock-info table an absent key renders
N/A in its row and no exception can arise (the builder is total); in the
business-metrics table, whenever the table is built, an absent forwardEps,
forwardPE or pegRatio renders N/A in its row, an absent dividendRate renders
the dollar-prefixed $N/A, an absent dividendYield renders 0.00% (the 0
default scaled by 100), and an absent recommendationKey renders the
capitalized N/a; and absence of dividendYield and recommendationKey, the
only keys whose values feed operations that can raise, guarantees the table
is built, whatever the other keys hold. -/
theorem missing_key_rows (info : Snapshot) :
    ((info "country" = Option.none →
        (stock_info info).lookup "Country" = some (Value.str "N/A")) ∧
     (info "sector" = Option.none →
        (stock_info info).lookup "Sector" = some (Value.str "N/A")) ∧
     (info "industry" = Option.none →
        (stock_info info).lookup "Industry" = some (Value.str "N/A")) ∧
     (info "marketCap" = Option.none →
        (stock_info info).lookup "Market Cap" = some (Value.str "N/A")) ∧
     (info "enterpriseValue" = Option.none →
        (stock_info info).lookup "Enterprise Value" = some (Value.str "N/A")) ∧
     (info "fullTimeEmployees" = Option.none →
        (stock_info info).lookup "Employees" = some (Value.str "N/A"))) ∧
    (∀ rows, biz_metrics info = .ok rows →
      (info "forwardEps" = Option.none →
        rows.lookup "EPS (FWD)" = some (Value.str "N/A")) ∧
      (info "forwardPE" = Option.none →
        rows.lookup "P/E (FWD)" = some (Value.str "N/A")) ∧
      (info "pegRatio" = Option.none →
        rows.lookup "PEG Ratio" = some (Value.str "N/A")) ∧
      (info "dividendRate" = Option.none →
        rows.lookup "Dividend Rate (FWD)" = some (Value.str "$N/A")) ∧
      (info "dividendYield" = Option.none →
        rows.lookup "Dividend Yield (FWD)" = some (Value.str "0.00%")) ∧
      (info "recommendationKey" = Option.none →
        rows.lookup "Recommendation" = some (Value.str "N/a"))) ∧
    (info "dividendYield" = Option.none → info "recommendationKey" = Option.none →
      ∃ rows, biz_metrics info = .ok rows) := by
  refine ⟨⟨?_, ?_, ?_, ?_, ?_, ?_⟩, ?_, ?_⟩
  · intro h
    show some ((info "country").getD (Value.str "N/A")) = some (Value.str "N/A")
    rw [h]
    rfl
  · intro h
    show some ((info "sector").getD (Value.str "N/A")) = some (Value.str "N/A")
    rw [h]
    rfl
  · intro h
    show some ((info "industry").getD (Value.str "N/A")) = some (Value.str "N/A")
    rw [h]
    rfl
  · intro h
    show some (Value.str (format_value ((info "marketCap").getD Value.none))) =
      some (Value.str "N/A")
    rw [h]
    rfl
  · intro h
    show some (Value.str (format_value ((info "enterpriseValue").getD Value.none))) =
      some (Value.str "N/A")
    rw [h]
    rfl
  · intro h
    show some ((info "fullTimeEmployees").getD (Value.str "N/A")) = some (Value.str "N/A")
    rw [h]
    rfl
  · intro rows hrows
    obtain ⟨s1, s2, s3, s4, dy, s5, rk, h1, h2, h3, h4, hmul, h5, hcap, hshape⟩ :=
      biz_metrics_ok_elim info rows hrows
    subst hshape
    refine ⟨?_, ?_, ?_, ?_, ?_, ?_⟩
    · intro h
      rw [getV, h] at h1
      have hv : (Except.ok "N/A" : Except PyErr String) = Except.ok s1 := h1
      injection hv with hv
      subst hv
      rfl
    · intro h
      rw [getV, h] at h2
      have hv : (Except.ok "N/A" : Except PyErr String) = Except.ok s2 := h2
      injection hv with hv
      subst hv
      rfl
    · intro h
      rw [getV, h] at h3
      have hv : (Except.ok "N/A" : Except PyErr String) = Except.ok s3 := h3
      injection hv with hv
      subst hv
      rfl
    · intro h
      rw [getV, h] at h4
      have hv : (Except.ok "N/A" : Except PyErr String) = Except.ok s4 := h4
      injection hv with hv
      subst hv
      rfl
    · intro h
      rw [getVD, h] at hmul
      have hv : (Except.ok (Value.int 0) : Except PyErr Value) = Except.ok dy := hmul
      injection hv with hv
      subst hv
      have hv5 : (Except.ok "0.00" : Except PyErr String) = Except.ok s5 := h5
      injection hv5 with hv5
      subst hv5
      rfl
    · intro h
      rw [getVD, h] at hcap
      have hv : (Except.ok "N/a" : Except PyErr String) = Except.ok rk := hcap
      injection hv with hv
      subst hv
      rfl
  · intro hdy hrk
    obtain ⟨s1, h1⟩ := safe_format_isOk (getV info "forwardEps")
    obtain ⟨s2, h2⟩ := safe_format_isOk (getV info "forwardPE")
    obtain ⟨s3, h3⟩ := safe_format_isOk (getV info "pegRatio")
    obtain ⟨s4, h4⟩ := safe_format_isOk (getV info "dividendRate")
    have hmul : pyMulInt (getVD info "dividendYield" (Value.int 0)) 100 = .ok (Value.int 0) := by
      rw [getVD, hdy]
      rfl
    obtain ⟨s5, h5⟩ := safe_format_isOk (Value.int 0)
    have hcap : pyCapitalize (getVD info "recommendationKey" (Value.str "N/A")) = .ok "N/a" := by
      rw [getVD, hrk]
      rfl
    exact ⟨[("EPS (FWD)", Value.str s1), ("P/E (FWD)", Value.str s2),
            ("PEG Ratio", Value.str s3), ("Dividend Rate (FWD)", Value.str ("$" ++ s4)),
            ("Dividend Yield (FWD)", Value.str (s5 ++ "%")),
            ("Recommendation", Value.str "N/a")],
          by simp only [biz_metrics, h1, h2, h3, h4, hmul, h5, hcap, exbind_ok, expure,
               exmap_ok]⟩

theorem missing_key_rows_witness :
    (stock_info emptySnap).lookup "Sector" = some (Value.str "N/A") ∧
    ∃ rows, biz_metrics emptySnap = .ok rows ∧
      rows.lookup "EPS (FWD)" = some (Value.str "N/A") ∧
      rows.lookup "Dividend Rate (FWD)" = some (Value.str "$N/A") ∧
      rows.lookup "Dividend Yield (FWD)" = some (Value.str "0.00%") ∧
      rows.lookup "Recommendation" = some (Value.str "N/a") := by
  have h := missing_key_rows emptySnap
  refine ⟨h.1.2.1 rfl, ?_⟩
  obtain ⟨rows, hrows⟩ := h.2.2 rfl rfl
  have hb := h.2.1 rows hrows
  exact ⟨rows, hrows, hb.1 rfl, hb.2.2.2.1 rfl, hb.2.2.2.2.1 rfl, hb.2.2.2.2.2 rfl⟩

/-- Claim C7: a ticker that is empty or whitespace-only is rejected before
any provider call: the submission issues no call and renders only the
validation message. -/
theorem blank_ticker_no_fetch (ticker periodLabel : String) (p : Provider)
    (h : pyStrip ticker = "") :
    submission ticker periodLabel p =
      ([], [St.errorBox "Please provide a valid stock ticker."]) := by
  rw [submission, if_pos h]

theorem blank_ticker_no_fetch_witness :
    submission "   " "1M" failingProvider =
      ([], [St.errorBox "Please provide a valid stock ticker."]) :=
  blank_ticker_no_fetch "   " "1M" failingProvider rfl

/-- Claim C8: after ticker validation, every error raised in the submission
cycle is caught at the top level and rendered as a single error box whose
text appends the underlying error text to the fixed prefix: an info-fetch
error yields only that box, a history-fetch error yields the already-rendered
subheader and the box, and an error while building the business metrics
leaves the earlier elements and appends the box; nothing propagates. -/
theorem submission_catches_errors (ticker periodLabel : String) (p : Provider)
    (hv : ¬ pyStrip ticker = "") :
    (∀ e, p.info = .error e →
       submission ticker periodLabel p =
         ([CallEvent.infoCall], [St.errorBox ("An error occurred: " ++ e.msg)])) ∧
    (∀ info e, p.info = .ok info →
       p.history (resolve periodLabel).1 (resolve periodLabel).2 = .error e →
       submission ticker periodLabel p =
         ([CallEvent.infoCall,
           CallEvent.historyCall (resolve periodLabel).1 (resolve periodLabel).2],
          [St.subheader (pyUpper ticker) (getVD info "longName" (Value.str "N/A")),
           St.errorBox ("An error occurred: " ++ e.msg)])) ∧
    (∀ info closes e, p.info = .ok info →
       p.history (resolve periodLabel).1 (resolve periodLabel).2 = .ok closes →
       biz_metrics info = .error e →
       ∃ priceRows, price_info info = .ok priceRows ∧
         (submission ticker periodLabel p).2 =
           [St.subheader (pyUpper ticker) (getVD info "longName" (Value.str "N/A")),
            if closes.isEmpty then
              St.warning "No historical data available for the selected period."
            else St.lineChart closes,
            St.table "Stock Info" (stock_info info),
            St.table "Price Info" priceRows,
            St.errorBox ("An error occurred: " ++ e.msg)]) := by
  refine ⟨?_, ?_, ?_⟩
  · intro e he
    simp [submission, hv, he]
  · intro info e hinfo hhist
    simp [submission, hv, hinfo, hhist]
  · intro info closes e hinfo hhist hbiz
    obtain ⟨pr, hpr, _⟩ := price_info_isOk info
    exact ⟨pr, hpr, by simp [submission, hv, hinfo, hhist, hpr, hbiz]⟩

theorem submission_catches_errors_witness :
    submission "AAPL" "1M" failingProvider =
      ([CallEvent.infoCall],
       [St.errorBox ("An error occurred: " ++ (PyErr.providerError "boom").msg)]) :=
  (submission_catches_errors "AAPL" "1M" failingProvider (by decide)).1
    (.providerError "boom") rfl

/-- Claim C10 counterexample: row values are not always strings: a snapshot
holding an integer employee count puts the raw integer in the Employees row,
because that row is a plain dictionary lookup with no formatter. -/
theorem employees_row_raw_counterexample :
    (stock_info empSnap).map Prod.snd =
      [Value.str "N/A", Value.str "N/A", Value.str "N/A", Value.str "N/A", Value.str "N/A",
       Value.int 150000] ∧
    Value.isStr (Value.int 150000) = false :=
  ⟨rfl, rfl⟩

/-- Claim C10 amended: every row built through a formatter or f-string is a
string for every snapshot: all six price-info rows, all six business-metrics
rows whenever that table is built, and the Market Cap and Enterprise Value
rows; the remaining stock-info rows (Country, Sector, Industry, Employees)
pass the raw snapshot value through unformatted. -/
theorem formatted_rows_are_strings (info : Snapshot) (bizRows : List (String × Value))
    (hbiz : biz_metrics info = .ok bizRows) :
    (∃ priceRows, price_info info = .ok priceRows ∧
       priceRows.all (fun r => Value.isStr r.2) = true) ∧
    bizRows.all (fun r => Value.isStr r.2) = true ∧
    (∃ s, (stock_info info).lookup "Market Cap" = some (Value.str s)) ∧
    (∃ s, (stock_info info).lookup "Enterprise Value" = some (Value.str s)) :=
  ⟨price_info_isOk info, biz_metrics_rows_str info bizRows hbiz, ⟨_, rfl⟩, ⟨_, rfl⟩⟩

theorem formatted_rows_are_strings_witness :
    (∃ priceRows, price_info emptySnap = .ok priceRows ∧
       priceRows.all (fun r => Value.isStr r.2) = true) ∧
    ([("EPS (FWD)", Value.str "N/A"), ("P/E (FWD)", Value.str "N/A"),
      ("PEG Ratio", Value.str "N/A"), ("Dividend Rate (FWD)", Value.str "$N/A"),
      ("Dividend Yield (FWD)", Value.str "0.00%"),
      ("Recommendation", Value.str "N/a")] : List (String × Value)).all
        (fun r => Value.isStr r.2) = true ∧
    (∃ s, (stock_info emptySnap).lookup "Market Cap" = some (Value.str s)) ∧
    (∃ s, (stock_info emptySnap).lookup "Enterprise Value" = some (Value.str s)) :=
  formatted_rows_are_strings emptySnap
    [("EPS (FWD)", Value.str "N/A"), ("P/E (FWD)", Value.str "N/A"),
     ("PEG Ratio", Value.str "N/A"), ("Dividend Rate (FWD)", Value.str "$N/A"),
     ("Dividend Yield (FWD)", Value.str "0.00%"), ("Recommendation", Value.str "N/a")]
    (by decide)

end ChartsApp
